import Mathlib

/-!
Verification of the Taskmanager-Webapp backend core: the task store routes
(backend/routes/taskRoutes.js together with the Mongoose schema in
backend/models/Task.js) and the JWT auth middleware
(backend/middleware/authMiddleware.js), shallowly embedded in Lean.

Tasks are modelled as records over Nat identifiers and Nat timestamps;
status and priority are kept as the strings Mongo stores. The Mongo
collection is a list of tasks; `findOne`/`findOneAndDelete` return the
first document matching the query, as the driver does.
-/

namespace TaskApp

/-- A task document, after backend/models/Task.js `taskSchema`.
`id` stands for Mongo's `_id`, `user` for the owner's ObjectId,
timestamps are seconds. `status` and `priority` are the stored enum
strings; `dueDate` is optional as in the schema. -/
structure Task where
  id : Nat
  title : String
  description : Option String
  status : String
  priority : String
  dueDate : Option Nat
  user : Nat
  createdAt : Nat
  updatedAt : Nat
deriving DecidableEq, Repr

/-- The JSON shape the task routes respond with: HTTP status, the
`success` flag, the `message` field, the `error` field appearing in the
500 catch bodies, and the returned task when there is one. -/
structure ApiResponse where
  status : Nat
  success : Bool
  message : Option String
  error : Option String
  task : Option Task
deriving DecidableEq, Repr

/-- The 404 body `{ success: false, message: 'Task not found' }` shared by
GET /:id, PUT /:id and DELETE /:id. -/
def taskNotFoundResponse : ApiResponse :=
  { status := 404, success := false, message := some "Task not found",
    error := none, task := none }

/-- `Task.findOne({ _id: taskId, user: userId })`: first document matching
both the task id and the owning user. -/
def getTask (userId taskId : Nat) (store : List Task) : Option Task :=
  store.find? (fun t => t.id == taskId && t.user == userId)

/-- GET /api/tasks/:id — 200 with the task when `findOne` hits,
otherwise the uniform 404 body. -/
def getTaskRoute (userId taskId : Nat) (store : List Task) : ApiResponse :=
  match getTask userId taskId store with
  | some t =>
      { status := 200, success := true, message := none, error := none,
        task := some t }
  | none => taskNotFoundResponse

/-- `Task.findOneAndDelete({ _id: taskId, user: userId })`: removes the
first matching document and returns it, leaving the store unchanged when
nothing matches. -/
def deleteTask (userId taskId : Nat) : List Task → Option Task × List Task
  | [] => (none, [])
  | t :: rest =>
      if t.id = taskId ∧ t.user = userId then (some t, rest)
      else
        let r := deleteTask userId taskId rest
        (r.1, t :: r.2)

/-- DELETE /api/tasks/:id — 200 with the deleted document's prior state,
or the uniform 404 body. -/
def deleteTaskRoute (userId taskId : Nat) (store : List Task) :
    ApiResponse × List Task :=
  match deleteTask userId taskId store with
  | (some t, store') =>
      ({ status := 200, success := true,
         message := some "Task deleted successfully", error := none,
         task := some t }, store')
  | (none, store') => (taskNotFoundResponse, store')

/-! The GET /api/tasks list route: per-user scoping, optional status and
priority filters from the query string, and the four sort orders. Query
parameters are `Option String` (absent) and the route's `if (status)`
truthiness check also skips the empty string. -/

/-- The `status`/`priority`/`sort` query parameters of GET /api/tasks. -/
structure ListQuery where
  status : Option String
  priority : Option String
  sort : Option String
deriving DecidableEq, Repr

/-- Whether a stored task matches the Mongo query the route builds:
`{ user: req.user._id }` plus `status`/`priority` when those parameters
are truthy. -/
def matchesQuery (userId : Nat) (q : ListQuery) (t : Task) : Bool :=
  t.user == userId
    && (match q.status with
        | some s => if s = "" then true else t.status == s
        | none => true)
    && (match q.priority with
        | some p => if p = "" then true else t.priority == p
        | none => true)

/-- Sort key for ascending dueDate: Mongo sorts documents missing the
field before any present value in an ascending sort. -/
def dueKey (t : Task) : Nat :=
  match t.dueDate with
  | none => 0
  | some d => d + 1

/-- The comparison the route's `sortOption` selects: `oldest` ascending
createdAt, `title` ascending title, `dueDate` ascending due date, and
`{ createdAt: -1 }` (newest first) for everything else, the default
included. -/
def sortLE (sort : Option String) (a b : Task) : Bool :=
  if sort = some "oldest" then decide (a.createdAt ≤ b.createdAt)
  else if sort = some "title" then decide (a.title ≤ b.title)
  else if sort = some "dueDate" then decide (dueKey a ≤ dueKey b)
  else decide (b.createdAt ≤ a.createdAt)

/-- `Task.find(query).sort(sortOption)` for GET /api/tasks: the caller's
tasks matching the filters, ordered by the selected comparison. -/
def listTasks (userId : Nat) (q : ListQuery) (store : List Task) :
    List Task :=
  List.insertionSort (fun a b => sortLE q.sort a b = true)
    (store.filter (matchesQuery userId q))

/-! POST /api/tasks: express-validator chain and task creation. The
validator chain runs every validator and `validationResult` collects all
failures; `.trim()` sanitises title and description in place, so the
handler destructures the trimmed values. -/

/-- JS `String.prototype.trim()`: drop whitespace from both ends.
Defined over the character list so it evaluates by kernel reduction. -/
def trimString (s : String) : String :=
  ⟨((s.data.dropWhile Char.isWhitespace).reverse.dropWhile
      Char.isWhitespace).reverse⟩

/-- A request body for POST /api/tasks. Absent JSON fields are `none`;
`user` models a caller-supplied user field, which the handler never
reads. -/
structure CreateBody where
  title : Option String
  description : Option String
  status : Option String
  priority : Option String
  dueDate : Option Nat
  user : Option Nat
deriving DecidableEq, Repr

def statusEnum : List String := ["pending", "in-progress", "completed"]

def priorityEnum : List String := ["low", "medium", "high"]

/-- `body('title').trim().isLength({ min: 3, max: 100 })`: the field is
not optional, so a missing title fails too. -/
def titleOk (b : CreateBody) : Bool :=
  match b.title with
  | none => false
  | some s =>
      decide (3 ≤ (trimString s).length ∧ (trimString s).length ≤ 100)

/-- `body('description').optional().trim().isLength({ max: 500 })`. -/
def descriptionOk (b : CreateBody) : Bool :=
  match b.description with
  | none => true
  | some s => decide ((trimString s).length ≤ 500)

/-- `body('status').optional().isIn([...])`; `optional()` only skips an
absent field, so a present invalid string fails. -/
def statusOk (b : CreateBody) : Bool :=
  match b.status with
  | none => true
  | some s => statusEnum.contains s

/-- `body('priority').optional().isIn([...])`. -/
def priorityOk (b : CreateBody) : Bool :=
  match b.priority with
  | none => true
  | some s => priorityEnum.contains s

/-- `validationResult(req).array()`: one `(field, message)` entry per
failed validator, in chain order, all failures collected. -/
def validateCreate (b : CreateBody) : List (String × String) :=
  (if titleOk b then []
   else [("title", "Title must be between 3 and 100 characters")])
    ++ (if descriptionOk b then []
        else [("description", "Description cannot exceed 500 characters")])
    ++ (if statusOk b then [] else [("status", "Invalid status")])
    ++ (if priorityOk b then [] else [("priority", "Invalid priority")])

/-- The document `Task.create` receives in the POST handler: trimmed
title and description, `status || 'pending'`, `priority || 'medium'`,
the request's dueDate, and `user: req.user._id` — never the body's user
field. `createdAt`/`updatedAt` default to now. -/
def buildTask (authUserId freshId now : Nat) (b : CreateBody) : Task :=
  { id := freshId
    title := (b.title.map trimString).getD ""
    description := b.description.map trimString
    status :=
      match b.status with
      | some s => if s = "" then "pending" else s
      | none => "pending"
    priority :=
      match b.priority with
      | some p => if p = "" then "medium" else p
      | none => "medium"
    dueDate := b.dueDate
    user := authUserId
    createdAt := now
    updatedAt := now }

/-- POST /api/tasks: 400 with every validation failure when the chain
reports any, otherwise insert the new document and answer 201 with it. -/
def createTaskRoute (authUserId freshId now : Nat) (b : CreateBody)
    (store : List Task) : ApiResponse × List Task :=
  if validateCreate b = [] then
    let t := buildTask authUserId freshId now b
    ({ status := 201, success := true,
       message := some "Task created successfully", error := none,
       task := some t }, store ++ [t])
  else
    ({ status := 400, success := false,
       message := some "Validation failed", error := none, task := none },
     store)

/-! PUT /api/tasks/:id: same validator chain with title optional, then
field-by-field assignment guarded by JS truthiness for title, status and
priority and by `!== undefined` for description and dueDate, then
`task.save()` which runs the pre-save hook setting `updatedAt`. -/

/-- A request body for PUT /api/tasks/:id; every field optional. -/
structure UpdateBody where
  title : Option String
  description : Option String
  status : Option String
  priority : Option String
  dueDate : Option Nat
deriving DecidableEq, Repr

/-- The update applied to a found task by the PUT handler: `if (title)
task.title = title`, `if (description !== undefined) ...`, `if (status)
...`, `if (priority) ...`, `if (dueDate !== undefined) ...`, then the
pre-save hook refreshes `updatedAt`. -/
def updateTaskFields (t : Task) (b : UpdateBody) (now : Nat) : Task :=
  let t1 :=
    match b.title with
    | some s => if s = "" then t else { t with title := s }
    | none => t
  let t2 :=
    match b.description with
    | some d => { t1 with description := some d }
    | none => t1
  let t3 :=
    match b.status with
    | some s => if s = "" then t2 else { t2 with status := s }
    | none => t2
  let t4 :=
    match b.priority with
    | some p => if p = "" then t3 else { t3 with priority := p }
    | none => t3
  let t5 :=
    match b.dueDate with
    | some d => { t4 with dueDate := some d }
    | none => t4
  { t5 with updatedAt := now }

/-! The 500 catch blocks of the task routes: a fixed top-level message
per operation plus `error: error.message`, the raw failure text. -/

/-- The body `router.get('/')` sends from its catch block, given the
thrown error's message. -/
def getTasksCatch (errMessage : String) : ApiResponse :=
  { status := 500, success := false,
    message := some "Error fetching tasks", error := some errMessage,
    task := none }

/-- The body `router.post('/')` sends from its catch block. -/
def createTaskCatch (errMessage : String) : ApiResponse :=
  { status := 500, success := false,
    message := some "Error creating task", error := some errMessage,
    task := none }

/-- A sample stored task used to instantiate theorems. -/
def sampleTask : Task :=
  { id := 1, title := "Buy milk", description := none, status := "pending",
    priority := "medium", dueDate := none, user := 7, createdAt := 10,
    updatedAt := 10 }

/-- A second sample task, same owner, created later. -/
def sampleTask2 : Task :=
  { id := 2, title := "Call Bob", description := some "about rent",
    status := "completed", priority := "high", dueDate := some 50, user := 7,
    createdAt := 20, updatedAt := 20 }

/-- A valid sample create body: title supplied, everything else
omitted. -/
def sampleCreateBody : CreateBody :=
  { title := some "Buy milk", description := none, status := none,
    priority := none, dueDate := none, user := none }

end TaskApp

namespace AuthApp

open TaskApp

/-! backend/middleware/authMiddleware.js: JWT issuance and the `protect`
gate. A JWT is modelled as a signed payload; the signature is ideal — it
records the payload and the signing secret, and verification compares
the secret. `jsonwebtoken` checks the signature before the `exp` claim
and reports expiry once the clock reaches `exp`. -/

/-- The claims `jwt.sign({ id }, secret, { expiresIn: '30d' })` encodes:
the user id, issued-at, and `exp = iat + 30 days` in seconds. -/
structure Payload where
  id : Nat
  iat : Nat
  exp : Nat
deriving DecidableEq, Repr

/-- Thirty days in seconds, the `expiresIn: '30d'` offset. -/
def thirtyDays : Nat := 30 * 24 * 60 * 60

/-- What the middleware may extract from the Authorization header: a
string that fails JWT decoding, or a decoded payload carrying the secret
its signature was made with. -/
inductive TokenData where
  | malformed
  | signed (payload : Payload) (sigSecret : String)
deriving DecidableEq, Repr

/-- The internally distinguishable verification failures: `jsonwebtoken`
raises JsonWebTokenError for undecodable input and for a bad signature,
and TokenExpiredError past `exp`. -/
inductive VerifyError where
  | malformedToken
  | signatureInvalid
  | expired
deriving DecidableEq, Repr

/-- `generateToken(id)`: sign `{ id }` with the server secret, expiring
thirty days after issuance. -/
def generateToken (id : Nat) (secret : String) (now : Nat) : TokenData :=
  .signed { id := id, iat := now, exp := now + thirtyDays } secret

/-- `jwt.verify(token, secret)` at clock time `now`: decode, check the
signature against `secret`, then fail with expired once `exp ≤ now`;
otherwise return the decoded id. -/
def verifyToken (t : TokenData) (secret : String) (now : Nat) :
    Except VerifyError Nat :=
  match t with
  | .malformed => .error .malformedToken
  | .signed p s =>
      if s = secret then
        if p.exp ≤ now then .error .expired else .ok p.id
      else .error .signatureInvalid

/-- A 401 body from the middleware. -/
structure AuthResponse where
  status : Nat
  success : Bool
  message : String
deriving DecidableEq, Repr

/-- The `protect` middleware. `header` is the extracted bearer token —
`none` when the Authorization header is absent or does not start with
Bearer. `users` is the set of ids `User.findById` finds. On success the
resolved user id is attached to the request. -/
def protect (header : Option TokenData) (secret : String) (now : Nat)
    (users : List Nat) : Except AuthResponse Nat :=
  match header with
  | none =>
      .error { status := 401, success := false,
               message := "Not authorized, no token provided" }
  | some td =>
      match verifyToken td secret now with
      | .error .malformedToken =>
          .error { status := 401, success := false,
                   message := "Invalid token" }
      | .error .signatureInvalid =>
          .error { status := 401, success := false,
                   message := "Invalid token" }
      | .error .expired =>
          .error { status := 401, success := false,
                   message := "Token expired" }
      | .ok uid =>
          if uid ∈ users then .ok uid
          else
            .error { status := 401, success := false,
                     message := "User not found" }

end AuthApp

namespace TaskApp

/-! Helper lemmas about `getTask` and `deleteTask`. -/

theorem getTask_eq_some_of_mem {store : List Task} {t : Task}
    (hnodup : (store.map Task.id).Nodup) (hmem : t ∈ store) :
    getTask t.user t.id store = some t := by
  induction store with
  | nil => cases hmem
  | cons hd tl ih =>
      simp only [List.map_cons, List.nodup_cons] at hnodup
      rcases List.mem_cons.mp hmem with rfl | htl
      · simp [getTask, List.find?]
      · have hne : hd.id ≠ t.id := by
          intro h
          exact hnodup.1 (h ▸ List.mem_map_of_mem Task.id htl)
        have : (hd.id == t.id && hd.user == t.user) = false := by
          simp [hne]
        simpa [getTask, List.find?, this] using ih hnodup.2 htl

theorem getTask_eq_none {store : List Task} {userId taskId : Nat}
    (h : ∀ t ∈ store, ¬(t.id = taskId ∧ t.user = userId)) :
    getTask userId taskId store = none := by
  unfold getTask
  rw [List.find?_eq_none]
  intro t ht
  have := h t ht
  simp only [Bool.and_eq_true, beq_iff_eq]
  tauto

theorem deleteTask_fst_of_head {t : Task} {rest : List Task} :
    (deleteTask t.user t.id (t :: rest)).1 = some t := by
  simp [deleteTask]

theorem deleteTask_fst_none {store : List Task} {userId taskId : Nat}
    (h : ∀ t ∈ store, ¬(t.id = taskId ∧ t.user = userId)) :
    (deleteTask userId taskId store).1 = none := by
  induction store with
  | nil => rfl
  | cons hd tl ih =>
      have hhd := h hd (List.mem_cons_self hd tl)
      have htl : ∀ t ∈ tl, ¬(t.id = taskId ∧ t.user = userId) :=
        fun t ht => h t (List.mem_cons_of_mem hd ht)
      simp [deleteTask, hhd, ih htl]

theorem deleteTask_removes_id {store : List Task} {t : Task}
    (hnodup : (store.map Task.id).Nodup) (hmem : t ∈ store) :
    ∀ x ∈ (deleteTask t.user t.id store).2, x.id ≠ t.id := by
  induction store with
  | nil => cases hmem
  | cons hd tl ih =>
      simp only [List.map_cons, List.nodup_cons] at hnodup
      rcases List.mem_cons.mp hmem with rfl | htl
      · simp only [deleteTask, and_self, if_true, reduceIte]
        intro x hx h
        exact hnodup.1 (h ▸ List.mem_map_of_mem Task.id hx)
      · have hne : hd.id ≠ t.id := by
          intro h
          exact hnodup.1 (h ▸ List.mem_map_of_mem Task.id htl)
        have hcond : ¬(hd.id = t.id ∧ hd.user = t.user) := fun h => hne h.1
        simp only [deleteTask, if_neg hcond]
        intro x hx
        rcases List.mem_cons.mp hx with rfl | hx2
        · exact hne
        · exact ih hnodup.2 htl x hx2

theorem deleteTask_fst_eq_some_of_mem {store : List Task} {t : Task}
    (hnodup : (store.map Task.id).Nodup) (hmem : t ∈ store) :
    (deleteTask t.user t.id store).1 = some t := by
  induction store with
  | nil => cases hmem
  | cons hd tl ih =>
      simp only [List.map_cons, List.nodup_cons] at hnodup
      rcases List.mem_cons.mp hmem with rfl | htl
      · exact deleteTask_fst_of_head
      · have hne : hd.id ≠ t.id := by
          intro h
          exact hnodup.1 (h ▸ List.mem_map_of_mem Task.id htl)
        have hcond : ¬(hd.id = t.id ∧ hd.user = t.user) := fun h => hne h.1
        simp [deleteTask, if_neg hcond, ih hnodup.2 htl]

theorem sortLE_total (s : Option String) (a b : Task) :
    sortLE s a b = true ∨ sortLE s b a = true := by
  unfold sortLE
  split
  · simpa using Nat.le_total a.createdAt b.createdAt
  · split
    · simpa using le_total a.title b.title
    · split
      · simpa using Nat.le_total (dueKey a) (dueKey b)
      · simpa using Nat.le_total b.createdAt a.createdAt

theorem sortLE_trans (s : Option String) (a b c : Task)
    (hab : sortLE s a b = true) (hbc : sortLE s b c = true) :
    sortLE s a c = true := by
  unfold sortLE at *
  split at hab <;> rename_i h1
  · rw [if_pos h1] at hbc ⊢
    simp only [decide_eq_true_eq] at *
    exact le_trans hab hbc
  · rw [if_neg h1] at hbc ⊢
    split at hab <;> rename_i h2
    · rw [if_pos h2] at hbc ⊢
      simp only [decide_eq_true_eq] at *
      exact le_trans hab hbc
    · rw [if_neg h2] at hbc ⊢
      split at hab <;> rename_i h3
      · rw [if_pos h3] at hbc ⊢
        simp only [decide_eq_true_eq] at *
        exact le_trans hab hbc
      · rw [if_neg h3] at hbc ⊢
        simp only [decide_eq_true_eq] at *
        exact le_trans hbc hab

theorem listTasks_sorted (userId : Nat) (q : ListQuery)
    (store : List Task) :
    (listTasks userId q store).Sorted
      (fun a b => sortLE q.sort a b = true) := by
  haveI : IsTotal Task (fun a b => sortLE q.sort a b = true) :=
    ⟨sortLE_total q.sort⟩
  haveI : IsTrans Task (fun a b => sortLE q.sort a b = true) :=
    ⟨sortLE_trans q.sort⟩
  exact List.sorted_insertionSort _ _

theorem listTasks_mem (userId : Nat) (q : ListQuery) (store : List Task)
    (t : Task) :
    t ∈ listTasks userId q store ↔
      t ∈ store ∧ matchesQuery userId q t = true := by
  unfold listTasks
  rw [(List.perm_insertionSort _ _).mem_iff, List.mem_filter]

/-- A string of length at least three is not the empty string, so it is
truthy in JS. -/
theorem ne_empty_of_three_le {s : String} (h : 3 ≤ s.length) : s ≠ "" := by
  intro he
  subst he
  exact absurd h (by decide)

/-- The status enum holds only non-empty, hence truthy, strings. -/
theorem statusEnum_ne_empty {s : String} (h : s ∈ statusEnum) : s ≠ "" := by
  simp only [statusEnum, List.mem_cons, List.not_mem_nil, or_false] at h
  rcases h with rfl | rfl | rfl <;> decide

/-- The priority enum holds only non-empty, hence truthy, strings. -/
theorem priorityEnum_ne_empty {s : String} (h : s ∈ priorityEnum) :
    s ≠ "" := by
  simp only [priorityEnum, List.mem_cons, List.not_mem_nil, or_false] at h
  rcases h with rfl | rfl | rfl <;> decide

/-- C1: for every userId and taskId, GET /:id returns the task exactly
when it exists with that id and is owned by userId; otherwise — whether
no such task exists or it belongs to another user — the route returns
the one constant 404 body, the same in both situations. -/
theorem get_task_existence_blind (store : List Task) (userId taskId : Nat)
    (hnodup : (store.map Task.id).Nodup) :
    (∀ t ∈ store, t.id = taskId → t.user = userId →
        getTaskRoute userId taskId store =
          { status := 200, success := true, message := none, error := none,
            task := some t })
    ∧ ((∀ t ∈ store, ¬(t.id = taskId ∧ t.user = userId)) →
        getTaskRoute userId taskId store = taskNotFoundResponse) := by
  constructor
  · intro t hmem hid huser
    have h := getTask_eq_some_of_mem hnodup hmem
    rw [hid, huser] at h
    simp [getTaskRoute, h]
  · intro h
    simp [getTaskRoute, getTask_eq_none h]

/-- Witness for C1 on a one-task store: the owner gets the task back,
a different user and a missing id both get the identical 404 body. -/
theorem get_task_existence_blind_witness :
    getTaskRoute 7 1 [sampleTask] =
      { status := 200, success := true, message := none, error := none,
        task := some sampleTask }
    ∧ getTaskRoute 8 1 [sampleTask] = taskNotFoundResponse
    ∧ getTaskRoute 8 99 [sampleTask] = taskNotFoundResponse := by
  refine ⟨?_, ?_, ?_⟩
  · exact (get_task_existence_blind [sampleTask] 7 1 (by decide)).1 sampleTask
      (by simp) rfl rfl
  · exact (get_task_existence_blind [sampleTask] 8 1 (by decide)).2
      (by decide)
  · exact (get_task_existence_blind [sampleTask] 8 99 (by decide)).2
      (by decide)

/-- C9: deleting an owned task answers 200 with the deleted record's
prior state, and afterwards any user's further delete or get of the same
id answers the uniform 404 body. -/
theorem delete_returns_prior_then_not_found (store : List Task) (t : Task)
    (anyUser anyUser' : Nat) (hnodup : (store.map Task.id).Nodup)
    (hmem : t ∈ store) :
    (deleteTaskRoute t.user t.id store).1 =
      { status := 200, success := true,
        message := some "Task deleted successfully", error := none,
        task := some t }
    ∧ getTaskRoute anyUser t.id (deleteTaskRoute t.user t.id store).2 =
        taskNotFoundResponse
    ∧ (deleteTaskRoute anyUser' t.id
          (deleteTaskRoute t.user t.id store).2).1 = taskNotFoundResponse := by
  rcases hd : deleteTask t.user t.id store with ⟨r, store'⟩
  have h1 : r = some t := by
    have h := deleteTask_fst_eq_some_of_mem hnodup hmem
    rw [hd] at h
    exact h
  subst h1
  have hgone : ∀ x ∈ store', x.id ≠ t.id := by
    have h := deleteTask_removes_id hnodup hmem
    rw [hd] at h
    exact h
  have hroute : deleteTaskRoute t.user t.id store =
      ({ status := 200, success := true,
         message := some "Task deleted successfully", error := none,
         task := some t }, store') := by
    simp [deleteTaskRoute, hd]
  refine ⟨?_, ?_, ?_⟩
  · rw [hroute]
  · rw [hroute]
    have h2 : getTask anyUser t.id store' = none :=
      getTask_eq_none (fun x hx hc => hgone x hx hc.1)
    simp [getTaskRoute, h2]
  · rw [hroute]
    have h3 : (deleteTask anyUser' t.id store').1 = none :=
      deleteTask_fst_none (fun x hx hc => hgone x hx hc.1)
    rcases hd2 : deleteTask anyUser' t.id store' with ⟨r2, s2⟩
    have h4 : r2 = none := by
      rw [hd2] at h3
      exact h3
    subst h4
    simp [deleteTaskRoute, hd2]

/-- Witness for C9 on a two-task store owned by user 7. -/
theorem delete_returns_prior_then_not_found_witness :
    (deleteTaskRoute 7 1 [sampleTask, sampleTask2]).1 =
      { status := 200, success := true,
        message := some "Task deleted successfully", error := none,
        task := some sampleTask }
    ∧ getTaskRoute 7 1 (deleteTaskRoute 7 1 [sampleTask, sampleTask2]).2 =
        taskNotFoundResponse
    ∧ (deleteTaskRoute 9 1
          (deleteTaskRoute 7 1 [sampleTask, sampleTask2]).2).1 =
        taskNotFoundResponse :=
  delete_returns_prior_then_not_found [sampleTask, sampleTask2] sampleTask
    7 9 (by decide) (by simp)

/-- C3 counterexample: a storage failure whose raw message is
"ECONNREFUSED" produces a 500 body whose `error` field carries that raw
message verbatim, so internal detail from the underlying failure is sent
to the client, contrary to the claim. -/
theorem storage_error_leaks_detail :
    (getTasksCatch "ECONNREFUSED").status = 500
    ∧ (getTasksCatch "ECONNREFUSED").error = some "ECONNREFUSED"
    ∧ (createTaskCatch "ECONNREFUSED").error = some "ECONNREFUSED" :=
  ⟨rfl, rfl, rfl⟩

/-- C3 amended: persistence failures answer 500 with a fixed generic
top-level message per operation, but the body's `error` field contains
the underlying failure's raw message. -/
theorem storage_error_shape (e : String) :
    getTasksCatch e =
      { status := 500, success := false,
        message := some "Error fetching tasks", error := some e,
        task := none }
    ∧ createTaskCatch e =
      { status := 500, success := false,
        message := some "Error creating task", error := some e,
        task := none } :=
  ⟨rfl, rfl⟩

/-- C4: when every provided field of a partial update is valid under the
PUT validators, the updated document takes exactly the provided fields'
values, keeps every absent field unchanged — identifier, title, owner
and creation timestamp included — and has its updated-at timestamp set
to the save time by the pre-save hook. -/
theorem update_changes_exactly_provided_fields (t : Task) (b : UpdateBody)
    (now : Nat)
    (htitle : ∀ s, b.title = some s → 3 ≤ s.length ∧ s.length ≤ 100)
    (hstatus : ∀ s, b.status = some s → s ∈ statusEnum)
    (hpriority : ∀ p, b.priority = some p → p ∈ priorityEnum) :
    updateTaskFields t b now =
      { id := t.id
        title := match b.title with | some s => s | none => t.title
        description :=
          match b.description with
          | some d => some d
          | none => t.description
        status := match b.status with | some s => s | none => t.status
        priority :=
          match b.priority with | some p => p | none => t.priority
        dueDate :=
          match b.dueDate with | some d => some d | none => t.dueDate
        user := t.user
        createdAt := t.createdAt
        updatedAt := now } := by
  obtain ⟨tl, ds, st, pr, dd⟩ := b
  simp only at htitle hstatus hpriority
  rcases tl with _ | s <;> rcases ds with _ | d <;> rcases st with _ | st2
    <;> rcases pr with _ | p2 <;> rcases dd with _ | d2 <;>
    (try have h1 : ¬(s = "") := ne_empty_of_three_le (htitle s rfl).1) <;>
    (try have h2 : ¬(st2 = "") := statusEnum_ne_empty (hstatus st2 rfl)) <;>
    (try have h3 : ¬(p2 = "") := priorityEnum_ne_empty (hpriority p2 rfl))
    <;> simp [updateTaskFields, *]

/-- Witness for C4: updating only status and dueDate of the sample task
changes those two fields, refreshes updatedAt, and keeps the rest. -/
theorem update_changes_exactly_provided_fields_witness :
    updateTaskFields sampleTask
      { title := none, description := none, status := some "completed",
        priority := none, dueDate := some 60 } 42 =
      { id := 1, title := "Buy milk", description := none,
        status := "completed", priority := "medium", dueDate := some 60,
        user := 7, createdAt := 10, updatedAt := 42 } :=
  update_changes_exactly_provided_fields sampleTask
    { title := none, description := none, status := some "completed",
      priority := none, dueDate := some 60 } 42
    (fun s hs => Option.noConfusion hs)
    (fun s hs => by injection hs with h; subst h; decide)
    (fun p hp => Option.noConfusion hp)

theorem titleOk_false_iff (b : CreateBody) :
    titleOk b = false ↔
      ¬∃ s, b.title = some s
        ∧ 3 ≤ (trimString s).length ∧ (trimString s).length ≤ 100 := by
  cases h : b.title with
  | none => simp [titleOk, h]
  | some s => simp [titleOk, h]

theorem descriptionOk_false_iff (b : CreateBody) :
    descriptionOk b = false ↔
      ∃ s, b.description = some s ∧ 500 < (trimString s).length := by
  cases h : b.description with
  | none => simp [descriptionOk, h]
  | some s => simp [descriptionOk, h]

theorem statusOk_false_iff (b : CreateBody) :
    statusOk b = false ↔ ∃ s, b.status = some s ∧ s ∉ statusEnum := by
  cases h : b.status with
  | none => simp [statusOk, h]
  | some s => simp [statusOk, h]

theorem priorityOk_false_iff (b : CreateBody) :
    priorityOk b = false ↔ ∃ s, b.priority = some s ∧ s ∉ priorityEnum := by
  cases h : b.priority with
  | none => simp [priorityOk, h]
  | some s => simp [priorityOk, h]

theorem validateCreate_eq_nil_iff (b : CreateBody) :
    validateCreate b = [] ↔
      titleOk b = true ∧ descriptionOk b = true ∧ statusOk b = true
        ∧ priorityOk b = true := by
  cases h1 : titleOk b <;> cases h2 : descriptionOk b
    <;> cases h3 : statusOk b <;> cases h4 : priorityOk b
    <;> simp [validateCreate, h1, h2, h3, h4]

theorem title_err_mem_iff (b : CreateBody) :
    ("title", "Title must be between 3 and 100 characters")
        ∈ validateCreate b ↔ titleOk b = false := by
  cases h1 : titleOk b <;> cases h2 : descriptionOk b
    <;> cases h3 : statusOk b <;> cases h4 : priorityOk b
    <;> simp [validateCreate, h1, h2, h3, h4]

theorem description_err_mem_iff (b : CreateBody) :
    ("description", "Description cannot exceed 500 characters")
        ∈ validateCreate b ↔ descriptionOk b = false := by
  cases h1 : titleOk b <;> cases h2 : descriptionOk b
    <;> cases h3 : statusOk b <;> cases h4 : priorityOk b
    <;> simp [validateCreate, h1, h2, h3, h4]

theorem status_err_mem_iff (b : CreateBody) :
    ("status", "Invalid status") ∈ validateCreate b ↔
      statusOk b = false := by
  cases h1 : titleOk b <;> cases h2 : descriptionOk b
    <;> cases h3 : statusOk b <;> cases h4 : priorityOk b
    <;> simp [validateCreate, h1, h2, h3, h4]

theorem priority_err_mem_iff (b : CreateBody) :
    ("priority", "Invalid priority") ∈ validateCreate b ↔
      priorityOk b = false := by
  cases h1 : titleOk b <;> cases h2 : descriptionOk b
    <;> cases h3 : statusOk b <;> cases h4 : priorityOk b
    <;> simp [validateCreate, h1, h2, h3, h4]

/-- C8: the validator chain is only clean when every rule holds, and the
collected error list carries one entry per violated field — title length
outside 3 to 100 after trimming, description longer than 500 after
trimming, status or priority outside their enums — each present exactly
when its rule is violated, so every violated field is listed, not just
the first. -/
theorem create_validation_lists_every_violation (b : CreateBody) :
    (validateCreate b = [] ↔
      titleOk b = true ∧ descriptionOk b = true ∧ statusOk b = true
        ∧ priorityOk b = true)
    ∧ (("title", "Title must be between 3 and 100 characters")
          ∈ validateCreate b ↔
        ¬∃ s, b.title = some s
          ∧ 3 ≤ (trimString s).length ∧ (trimString s).length ≤ 100)
    ∧ (("description", "Description cannot exceed 500 characters")
          ∈ validateCreate b ↔
        ∃ s, b.description = some s ∧ 500 < (trimString s).length)
    ∧ (("status", "Invalid status") ∈ validateCreate b ↔
        ∃ s, b.status = some s ∧ s ∉ statusEnum)
    ∧ (("priority", "Invalid priority") ∈ validateCreate b ↔
        ∃ s, b.priority = some s ∧ s ∉ priorityEnum) := by
  refine ⟨validateCreate_eq_nil_iff b, ?_, ?_, ?_, ?_⟩
  · rw [title_err_mem_iff, titleOk_false_iff]
  · rw [description_err_mem_iff, descriptionOk_false_iff]
  · rw [status_err_mem_iff, statusOk_false_iff]
  · rw [priority_err_mem_iff, priorityOk_false_iff]

theorem find?_append_of_none {α : Type} {p : α → Bool} {l1 l2 : List α}
    (h : l1.find? p = none) : (l1 ++ l2).find? p = l2.find? p := by
  rw [List.find?_append, h]
  exact Option.none_or

/-- C6: creating a task from a valid body (fields already trimmed, as
the sanitisers leave them) answers 201 with the new document, getting it
back by its fresh id returns the same document, and the document equals
the body in every supplied field while an omitted status defaults to
pending and an omitted priority to medium. -/
theorem create_then_get_roundtrip (uid freshId now : Nat) (b : CreateBody)
    (store : List Task) (hvalid : validateCreate b = [])
    (hfresh : freshId ∉ store.map Task.id)
    (htrim : ∀ s, b.title = some s → trimString s = s)
    (hdtrim : ∀ s, b.description = some s → trimString s = s) :
    (createTaskRoute uid freshId now b store).1.status = 201
    ∧ (createTaskRoute uid freshId now b store).1.task =
        some (buildTask uid freshId now b)
    ∧ getTask uid freshId (createTaskRoute uid freshId now b store).2 =
        some (buildTask uid freshId now b)
    ∧ (∀ s, b.title = some s → (buildTask uid freshId now b).title = s)
    ∧ (buildTask uid freshId now b).description = b.description
    ∧ (∀ s, b.status = some s → (buildTask uid freshId now b).status = s)
    ∧ (b.status = none → (buildTask uid freshId now b).status = "pending")
    ∧ (∀ p, b.priority = some p →
        (buildTask uid freshId now b).priority = p)
    ∧ (b.priority = none →
        (buildTask uid freshId now b).priority = "medium")
    ∧ (buildTask uid freshId now b).dueDate = b.dueDate
    ∧ (buildTask uid freshId now b).user = uid := by
  have hroute : createTaskRoute uid freshId now b store =
      ({ status := 201, success := true,
         message := some "Task created successfully", error := none,
         task := some (buildTask uid freshId now b) },
       store ++ [buildTask uid freshId now b]) := by
    simp [createTaskRoute, hvalid]
  have hok := (validateCreate_eq_nil_iff b).mp hvalid
  refine ⟨by rw [hroute], by rw [hroute], ?_, ?_, ?_, ?_, ?_, ?_, ?_, ?_,
    rfl⟩
  · rw [hroute]
    have hnone : store.find?
        (fun t => t.id == freshId && t.user == uid) = none := by
      rw [List.find?_eq_none]
      intro x hx
      simp only [Bool.and_eq_true, beq_iff_eq, not_and]
      intro hid
      exact absurd (hid ▸ List.mem_map_of_mem Task.id hx) hfresh
    unfold getTask
    rw [find?_append_of_none hnone]
    simp [List.find?, buildTask]
  · intro s hs
    simp [buildTask, hs, htrim s hs]
  · rcases hd : b.description with _ | s
    · simp [buildTask, hd]
    · simp [buildTask, hd, hdtrim s hd]
  · intro s hs
    have h1 : statusOk b = true := hok.2.2.1
    rw [statusOk, hs] at h1
    have h2 : s ∈ statusEnum := by simpa using h1
    simp [buildTask, hs, statusEnum_ne_empty h2]
  · intro hs
    simp [buildTask, hs]
  · intro p hp
    have h1 : priorityOk b = true := hok.2.2.2
    rw [priorityOk, hp] at h1
    have h2 : p ∈ priorityEnum := by simpa using h1
    simp [buildTask, hp, priorityEnum_ne_empty h2]
  · intro hp
    simp [buildTask, hp]
  · rfl

/-- Witness for C6: creating from the sample body in an empty store and
reading the fresh id back returns the created document with default
status pending and priority medium. -/
theorem create_then_get_roundtrip_witness :
    (createTaskRoute 7 1 5 sampleCreateBody []).1.status = 201
    ∧ (createTaskRoute 7 1 5 sampleCreateBody []).1.task =
        some (buildTask 7 1 5 sampleCreateBody)
    ∧ getTask 7 1 (createTaskRoute 7 1 5 sampleCreateBody []).2 =
        some (buildTask 7 1 5 sampleCreateBody)
    ∧ (∀ s, sampleCreateBody.title = some s →
        (buildTask 7 1 5 sampleCreateBody).title = s)
    ∧ (buildTask 7 1 5 sampleCreateBody).description =
        sampleCreateBody.description
    ∧ (∀ s, sampleCreateBody.status = some s →
        (buildTask 7 1 5 sampleCreateBody).status = s)
    ∧ (sampleCreateBody.status = none →
        (buildTask 7 1 5 sampleCreateBody).status = "pending")
    ∧ (∀ p, sampleCreateBody.priority = some p →
        (buildTask 7 1 5 sampleCreateBody).priority = p)
    ∧ (sampleCreateBody.priority = none →
        (buildTask 7 1 5 sampleCreateBody).priority = "medium")
    ∧ (buildTask 7 1 5 sampleCreateBody).dueDate =
        sampleCreateBody.dueDate
    ∧ (buildTask 7 1 5 sampleCreateBody).user = 7 :=
  create_then_get_roundtrip 7 1 5 sampleCreateBody [] (by decide)
    (by decide)
    (fun s hs => by injection hs with h; subst h; decide)
    (fun s hs => Option.noConfusion hs)

theorem matchesQuery_eq_true_iff (userId : Nat) (q : ListQuery)
    (t : Task) :
    matchesQuery userId q t = true ↔
      (t.user = userId
        ∧ (∀ s, q.status = some s → s ≠ "" → t.status = s)
        ∧ (∀ p, q.priority = some p → p ≠ "" → t.priority = p)) := by
  rcases q with ⟨qs, qp, qsort⟩
  unfold matchesQuery
  simp only [Bool.and_eq_true, beq_iff_eq]
  rcases qs with _ | s <;> rcases qp with _ | p <;> simp
  · by_cases hp : p = "" <;> simp [hp]
  · by_cases hs : s = "" <;> simp [hs]
  · by_cases hs : s = "" <;> by_cases hp : p = "" <;>
      simp [hs, hp, and_assoc]

/-- C7: the list route returns exactly the caller's tasks matching the
truthy status and priority filters, ordered by the sort key — creation
timestamp descending for `newest` and for any unrecognized or absent
sort value, ascending for `oldest`, title ascending for `title`, and due
date ascending for `dueDate`. -/
theorem list_route_filters_and_sorts (userId : Nat) (q : ListQuery)
    (store : List Task) :
    (∀ t, t ∈ listTasks userId q store ↔
        (t ∈ store ∧ t.user = userId
          ∧ (∀ s, q.status = some s → s ≠ "" → t.status = s)
          ∧ (∀ p, q.priority = some p → p ≠ "" → t.priority = p)))
    ∧ (q.sort ≠ some "oldest" → q.sort ≠ some "title" →
        q.sort ≠ some "dueDate" →
        (listTasks userId q store).Pairwise
          (fun a b => b.createdAt ≤ a.createdAt))
    ∧ (q.sort = some "oldest" →
        (listTasks userId q store).Pairwise
          (fun a b => a.createdAt ≤ b.createdAt))
    ∧ (q.sort = some "title" →
        (listTasks userId q store).Pairwise
          (fun a b => a.title ≤ b.title))
    ∧ (q.sort = some "dueDate" →
        (listTasks userId q store).Pairwise
          (fun a b => ∀ da db, a.dueDate = some da → b.dueDate = some db →
            da ≤ db)) := by
  have hs := listTasks_sorted userId q store
  refine ⟨?_, ?_, ?_, ?_, ?_⟩
  · intro t
    rw [listTasks_mem, matchesQuery_eq_true_iff]
  · intro h1 h2 h3
    refine hs.imp ?_
    intro a b hab
    unfold sortLE at hab
    rw [if_neg h1, if_neg h2, if_neg h3] at hab
    exact of_decide_eq_true hab
  · intro h
    refine hs.imp ?_
    intro a b hab
    unfold sortLE at hab
    rw [if_pos h] at hab
    exact of_decide_eq_true hab
  · intro h
    have hno : q.sort ≠ some "oldest" := by rw [h]; decide
    refine hs.imp ?_
    intro a b hab
    unfold sortLE at hab
    rw [if_neg hno, if_pos h] at hab
    exact of_decide_eq_true hab
  · intro h
    have hno1 : q.sort ≠ some "oldest" := by rw [h]; decide
    have hno2 : q.sort ≠ some "title" := by rw [h]; decide
    refine hs.imp ?_
    intro a b hab
    unfold sortLE at hab
    rw [if_neg hno1, if_neg hno2, if_pos h] at hab
    have hk : dueKey a ≤ dueKey b := of_decide_eq_true hab
    intro da db hda hdb
    rw [dueKey, dueKey] at hk
    simp only [hda, hdb] at hk
    omega

/-- Witness for C7: for the `oldest` sort on a concrete two-task store,
the returned list is ascending in creation time. -/
theorem list_route_filters_and_sorts_witness :
    (listTasks 7
        { status := none, priority := none, sort := some "oldest" }
        [sampleTask2, sampleTask]).Pairwise
      (fun a b => a.createdAt ≤ b.createdAt) :=
  (list_route_filters_and_sorts 7
    { status := none, priority := none, sort := some "oldest" }
    [sampleTask2, sampleTask]).2.2.1 rfl

/-- C10: the document handed to `Task.create` takes its owner from the
authenticated user resolved by the middleware; a `user` field in the
request body is never read, so changing it changes nothing and the
created task is always owned by the authenticated user. -/
theorem create_owner_from_auth (authUserId freshId now : Nat)
    (b : CreateBody) (v : Option Nat) :
    (buildTask authUserId freshId now { b with user := v }).user = authUserId
    ∧ buildTask authUserId freshId now { b with user := v } =
        buildTask authUserId freshId now b :=
  ⟨rfl, rfl⟩

end TaskApp

namespace AuthApp

/-- C5: verifying a token immediately after issuance returns the user id
it was issued for, and verifying the same token at any instant past the
expiration instant (issuance + 30 days) fails with the expired error. -/
theorem token_roundtrip_and_expiry (u : Nat) (secret : String)
    (t t' : Nat) (hafter : t + thirtyDays < t') :
    verifyToken (generateToken u secret t) secret t = .ok u
    ∧ verifyToken (generateToken u secret t) secret t' =
        .error .expired := by
  have h30 : 0 < thirtyDays := by decide
  constructor
  · simp only [generateToken, verifyToken, if_true, eq_self_iff_true]
    rw [if_neg (by omega)]
  · simp only [generateToken, verifyToken, if_true, eq_self_iff_true]
    rw [if_pos (by omega)]

/-- Witness for C5: a token issued at time 0 for user 5 verifies to 5 at
time 0 and is expired one second past thirty days. -/
theorem token_roundtrip_and_expiry_witness :
    verifyToken (generateToken 5 "server-secret" 0) "server-secret" 0 =
      .ok 5
    ∧ verifyToken (generateToken 5 "server-secret" 0) "server-secret"
        (thirtyDays + 1) = .error .expired :=
  token_roundtrip_and_expiry 5 "server-secret" 0 (thirtyDays + 1)
    (by decide)

/-- C2 counterexample: two authentication failures — a request with no
token and a request with an expired token — both fail, yet receive
different response bodies ("Not authorized, no token provided" versus
"Token expired"), so failing requests are distinguishable and the
specific failure reason is revealed. -/
theorem auth_failures_distinguishable :
    protect none "server-secret" 0 [] =
      .error { status := 401, success := false,
               message := "Not authorized, no token provided" }
    ∧ protect
        (some (.signed { id := 1, iat := 0, exp := thirtyDays }
          "server-secret"))
        "server-secret" (thirtyDays + 1) [1] =
      .error { status := 401, success := false,
               message := "Token expired" }
    ∧ ("Not authorized, no token provided" : String) ≠ "Token expired" :=
  ⟨rfl, rfl, by decide⟩

/-- C2 amended: every failing protected request is answered with status
401 and success false, but the message names the failure category —
missing token, invalid token (malformed or bad signature), expired
token, or unknown user — so the bodies of two failures from different
categories differ rather than being indistinguishable. -/
theorem protect_failure_status_uniform (header : Option TokenData)
    (secret : String) (now : Nat) (users : List Nat) (e : AuthResponse)
    (h : protect header secret now users = .error e) :
    e.status = 401 ∧ e.success = false
    ∧ (e.message = "Not authorized, no token provided"
        ∨ e.message = "Invalid token"
        ∨ e.message = "Token expired"
        ∨ e.message = "User not found") := by
  unfold protect at h
  split at h
  · injection h with h2
    subst h2
    exact ⟨rfl, rfl, Or.inl rfl⟩
  · split at h
    · injection h with h2
      subst h2
      exact ⟨rfl, rfl, Or.inr (Or.inl rfl)⟩
    · injection h with h2
      subst h2
      exact ⟨rfl, rfl, Or.inr (Or.inl rfl)⟩
    · injection h with h2
      subst h2
      exact ⟨rfl, rfl, Or.inr (Or.inr (Or.inl rfl))⟩
    · split at h
      · cases h
      · injection h with h2
        subst h2
        exact ⟨rfl, rfl, Or.inr (Or.inr (Or.inr rfl))⟩

/-- Witness for the amended C2 at a malformed token. -/
theorem protect_failure_status_uniform_witness :
    ({ status := 401, success := false,
       message := "Invalid token" } : AuthResponse).status = 401
    ∧ ({ status := 401, success := false,
         message := "Invalid token" } : AuthResponse).success = false
    ∧ (({ status := 401, success := false,
          message := "Invalid token" } : AuthResponse).message =
            "Not authorized, no token provided"
        ∨ ({ status := 401, success := false,
             message := "Invalid token" } : AuthResponse).message =
            "Invalid token"
        ∨ ({ status := 401, success := false,
             message := "Invalid token" } : AuthResponse).message =
            "Token expired"
        ∨ ({ status := 401, success := false,
             message := "Invalid token" } : AuthResponse).message =
            "User not found") :=
  protect_failure_status_uniform (some .malformed) "server-secret" 0 []
    { status := 401, success := false, message := "Invalid token" } rfl

end AuthApp
